import Mathlib

set_option maxHeartbeats 1000000

/-!
Shallow embedding of the bulk dispatch script src/send.py.

Pure fragments (recipient line filtering, weighted selection, placeholder
substitution, template loading, session creation) are translated directly.
The loop of send_bulk_emails (lines 672-766) is embedded as a fold over the
fetched recipient slice with an explicit store; each database commit consumes
one entry of a boolean failure schedule, so store write failures and the
exception paths they trigger are represented faithfully.  Delivery points of
the SIGINT handler (lines 707-714) are modelled by an explicit interrupt
point: between two loop iterations, or during a send after the
current_position assignment of line 719 but before the log insert of
send_email has committed.
-/

/-- Whitespace characters removed by the Python str.strip call. -/
def isSpaceChar (c : Char) : Bool :=
  c = ' ' || c = '\t' || c = '\n' || c = '\r' || c = '\x0b' || c = '\x0c'

/-- Drop leading whitespace characters from a character list. -/
def dropLeadingSpace : List Char → List Char
  | [] => []
  | c :: cs => if isSpaceChar c then dropLeadingSpace cs else c :: cs

/-- Python line.strip(): remove leading and trailing whitespace. -/
def pyStrip (s : String) : String :=
  String.mk (dropLeadingSpace (dropLeadingSpace s.data.reverse).reverse)

/-- A stripped line counts as a recipient iff it is non-empty and contains
the at sign (send.py lines 655-657 and 912-914). -/
def validEmail (s : String) : Bool :=
  (!s.data.isEmpty) && s.data.contains '@'

/-- Python file iteration: split a file into its lines, each keeping its
trailing newline character, with no empty final line for a trailing newline. -/
def pyLinesAux : List Char → List Char → List (List Char)
  | [], acc => if acc.isEmpty then [] else [acc.reverse]
  | c :: cs, acc =>
    if c = '\n' then (c :: acc).reverse :: pyLinesAux cs []
    else pyLinesAux cs (c :: acc)

/-- The lines of a file, as iterated by the Python for-loop over a file. -/
def pyLines (s : String) : List String :=
  (pyLinesAux s.data []).map (fun l => String.mk l)

/-- Truthiness guard of the limit check at line 659: a limit of none or zero
never triggers, otherwise the loop breaks once the accumulated count reaches
the limit. -/
def limitReached : Option Nat → Nat → Bool
  | none, _ => false
  | some l, n => if l = 0 then false else decide (l ≤ n)

/-- Loop body of get_emails_from_list (send.py lines 649-662): enumerate raw
file lines, skip the first startPos lines by raw line index, strip each
remaining line, keep it when valid, and stop once the limit is reached. -/
def getEmailsAux : List String → Nat → Nat → Option Nat → List String → List String
  | [], _, _, _, acc => acc.reverse
  | line :: rest, i, startPos, limit, acc =>
    if i < startPos then getEmailsAux rest (i + 1) startPos limit acc
    else
      if validEmail (pyStrip line) then
        if limitReached limit (pyStrip line :: acc).length then (pyStrip line :: acc).reverse
        else getEmailsAux rest (i + 1) startPos limit (pyStrip line :: acc)
      else
        if limitReached limit acc.length then acc.reverse
        else getEmailsAux rest (i + 1) startPos limit acc

/-- get_emails_from_list (send.py lines 637-662), with the file already read
into its list of lines; the list and file resolution are I/O and are elided. -/
def getEmailsFromList (lines : List String) (startPos : Nat) (limit : Option Nat) : List String :=
  getEmailsAux lines 0 startPos limit []

/-- Counting loop of add_email_list (send.py lines 908-914): number of file
lines that are non-empty after stripping and contain the at sign. -/
def addEmailListCount (lines : List String) : Nat :=
  lines.foldl (fun c line => if validEmail (pyStrip line) then c + 1 else c) 0

/-- An item of a content pool, carrying the weight used by weighted rotation
(templates, subjects and from lines all carry weight INTEGER DEFAULT 1). -/
structure PoolItem where
  id : Nat
  weight : Nat
deriving DecidableEq

/-- Sum of the weights of a pool, as computed at send.py line 484. -/
def totalWeight (items : List PoolItem) : Nat :=
  (items.map (fun it => it.weight)).sum

/-- The accumulation walk of select_random_item (send.py lines 486-490): the
code keeps the first item whose running total satisfies rand <= current. -/
def weightedWalk : List PoolItem → ℚ → ℚ → Option PoolItem
  | [], _, _ => none
  | it :: rest, r, current =>
    if r ≤ current + (it.weight : ℚ) then some it
    else weightedWalk rest r (current + (it.weight : ℚ))

/-- Follows the wording of the spec (section 4.1): return the first variant
whose cumulative weight strictly exceeds the draw. -/
def weightedWalkSpec : List PoolItem → ℚ → ℚ → Option PoolItem
  | [], _, _ => none
  | it :: rest, r, current =>
    if r < current + (it.weight : ℚ) then some it
    else weightedWalkSpec rest r (current + (it.weight : ℚ))

/-- The running totals visited by the walk, starting from a given value. -/
def cumulativeWeights : List PoolItem → ℚ → List ℚ
  | [], _ => []
  | it :: rest, current =>
    (current + (it.weight : ℚ)) :: cumulativeWeights rest (current + (it.weight : ℚ))

/-- random.choice modelled with an externally supplied index. -/
def randomChoice (items : List PoolItem) (idx : Nat) : Option PoolItem :=
  items.get? (idx % items.length)

/-- select_random_item (send.py lines 477-493): empty pools yield None; in
weighted mode the accumulation walk runs first and random.choice is the
fall-through; every other mode goes straight to random.choice.  The uniform
draw and the choice index are supplied as arguments. -/
def selectRandomItem (rotationMode : String) (items : List PoolItem) (draw : ℚ)
    (choiceIdx : Nat) : Option PoolItem :=
  if items.isEmpty then none
  else if rotationMode = "weighted" then
    match weightedWalk items draw 0 with
    | some it => some it
    | none => randomChoice items choiceIdx
  else randomChoice items choiceIdx

/-- A row of the templates table (send.py lines 95-103). -/
structure TemplateRow where
  id : Nat
  name : String
  content : String
  isActive : Bool
  weight : Nat
deriving DecidableEq

/-- Body of get_default_template (send.py lines 234-316), reduced to the
placeholder-bearing lines; the surrounding HTML boilerplate carries no
placeholder and affects none of the properties proved here. -/
def defaultTemplateContent (n : Nat) : String :=
  if n = 2 then
    "Email: \x7b\x7bemail\x7d\x7d Heure: \x7b\x7btimestamp\x7d\x7d Reference: \x7b\x7btemplate_name\x7d\x7d"
  else if n = 3 then
    "Destinataire: \x7b\x7bemail\x7d\x7d Date: \x7b\x7btimestamp\x7d\x7d Template: \x7b\x7btemplate_name\x7d\x7d"
  else
    "Email: \x7b\x7bemail\x7d\x7d Date: \x7b\x7btimestamp\x7d\x7d Template: \x7b\x7btemplate_name\x7d\x7d"

/-- The three default rows inserted by load_templates when no active template
exists (send.py lines 204-218): is_active defaults to 1, weight to 1, ids are
assigned by autoincrement. -/
def defaultTemplateRows (nextId : Nat) : List TemplateRow :=
  [⟨nextId, "Template 1", defaultTemplateContent 1, true, 1⟩,
   ⟨nextId + 1, "Template 2", defaultTemplateContent 2, true, 1⟩,
   ⟨nextId + 2, "Template 3", defaultTemplateContent 3, true, 1⟩]

/-- load_templates (send.py lines 198-232): count the active rows; when the
count is zero insert the three defaults; then return the table together with
the list of active rows that the manager keeps. -/
def loadTemplates (rows : List TemplateRow) (nextId : Nat) :
    List TemplateRow × List TemplateRow :=
  let activeCount := (rows.filter (fun t => t.isActive)).length
  let rows2 := if activeCount = 0 then rows ++ defaultTemplateRows nextId else rows
  (rows2, rows2.filter (fun t => t.isActive))

/-- A row of the email_lists table (send.py lines 124-132). -/
structure EmailListRow where
  id : Nat
  name : String
  filePath : String
  totalEmails : Nat
  lastPosition : Nat
deriving DecidableEq

/-- List resolution of start_session (send.py lines 595-601), including the
Python truthiness of the two optional arguments. -/
def resolveEmailList (lists : List EmailListRow) (listId : Option Nat)
    (listName : Option String) : Option EmailListRow :=
  if listId.getD 0 ≠ 0 then lists.find? (fun l => l.id == listId.getD 0)
  else if listName.getD "" ≠ "" then lists.find? (fun l => l.name == listName.getD "")
  else lists.head?

/-- start_session (send.py lines 590-624): when no email list resolves the
function returns None and inserts nothing; otherwise it inserts one session
row with status STARTED and returns the session id. -/
def startSession (lists : List EmailListRow) (listId : Option Nat)
    (listName : Option String) (sessionId : String) : Option (String × String) :=
  match resolveEmailList lists listId listName with
  | none => none
  | some _ => some (sessionId, "STARTED")

/-- Python str.replace on character lists: scan left to right, replace each
leftmost non-overlapping occurrence of the pattern, never rescanning the
inserted replacement.  The fuel argument is the length of the scanned list,
which bounds the recursion since every step consumes at least one character. -/
def replaceFuel : Nat → List Char → List Char → List Char → List Char
  | 0, s, _, _ => s
  | _ + 1, [], _, _ => []
  | fuel + 1, c :: cs, pat, rep =>
    if pat ≠ [] ∧ pat = (c :: cs).take pat.length then
      rep ++ replaceFuel fuel (List.drop pat.length (c :: cs)) pat rep
    else
      c :: replaceFuel fuel cs pat rep

/-- Python content.replace(key, value) for the non-empty keys used here. -/
def strReplace (s pat rep : String) : String :=
  String.mk (replaceFuel s.data.length s.data pat.data rep.data)

/-- The substitution loop of create_email_content (send.py lines 523-524):
one full-content replace per key, applied sequentially in list order. -/
def applyReplacements (content : String) (reps : List (String × String)) : String :=
  reps.foldl (fun c kv => strReplace c kv.1 kv.2) content

/-- Wrap a caller key into the double-brace token syntax, as the f-string at
send.py line 521 does. -/
def wrapPlaceholder (k : String) : String :=
  "\x7b\x7b" ++ k ++ "\x7d\x7d"

/-- Python dict assignment on the replacement table: an existing key keeps
its position and gets the new value, a new key is appended. -/
def updateReplacement (reps : List (String × String)) (key val : String) :
    List (String × String) :=
  if reps.any (fun kv => kv.1 == key) then
    reps.map (fun kv => if kv.1 == key then (key, val) else kv)
  else reps ++ [(key, val)]

/-- The replacements dict of create_email_content (send.py lines 510-521), in
insertion order: the six built-ins followed by the caller custom data. -/
def buildReplacements (recipient timestamp templateName subjectText fromName fromEmail : String)
    (customData : List (String × String)) : List (String × String) :=
  customData.foldl (fun reps kv => updateReplacement reps (wrapPlaceholder kv.1) kv.2)
    [(wrapPlaceholder "email", recipient),
     (wrapPlaceholder "timestamp", timestamp),
     (wrapPlaceholder "template_name", templateName),
     (wrapPlaceholder "subject_text", subjectText),
     (wrapPlaceholder "from_name", fromName),
     (wrapPlaceholder "from_email", fromEmail)]

/-- create_email_content (send.py lines 503-535): substitute into the
template body, then prepend the envelope header block.  The timestamp is the
one datetime.now read, passed in as an argument. -/
def createEmailContent (recipient templateName templateContent subjectText fromName fromEmail timestamp : String)
    (customData : List (String × String)) : String :=
  let content := applyReplacements templateContent
    (buildReplacements recipient timestamp templateName subjectText fromName fromEmail customData)
  "From: " ++ fromName ++ " <" ++ fromEmail ++ ">\nTo: " ++ recipient ++
    "\nSubject: " ++ subjectText ++
    "\nMIME-Version: 1.0\nContent-Type: text/html; charset=utf-8\n\n" ++ content ++ "\n"

/-- Outcome recorded in one email_logs row (send.py lines 554-563). -/
inductive EmailStatus where
  | success
  | failed
deriving DecidableEq

/-- One email_logs row, reduced to the fields the claims speak about. -/
structure LogEntry where
  recipient : String
  status : EmailStatus
deriving DecidableEq

/-- The durable store: the email_logs table, the email_lists cursor and the
session counters, together with a schedule of write outcomes — each commit
consumes one boolean, true meaning the write raises. -/
structure Store where
  failSchedule : List Bool
  logs : List LogEntry
  lastPosition : Nat
  sessionStats : Option (Nat × Nat × String)
deriving DecidableEq

/-- Consume the next scheduled write outcome; an exhausted schedule means
writes succeed. -/
def dbAttempt (st : Store) : Bool × Store :=
  match st.failSchedule with
  | [] => (false, st)
  | b :: rest => (b, { st with failSchedule := rest })

/-- INSERT INTO email_logs plus commit (send.py lines 558-565 and 580-587):
on success the row is appended, on failure the exception propagates. -/
def appendLog (st : Store) (e : LogEntry) : Except Store Store :=
  let (fails, st2) := dbAttempt st
  if fails then Except.error st2
  else Except.ok { st2 with logs := st2.logs ++ [e] }

/-- update_list_position (send.py lines 664-670) as one committed write. -/
def writeListPosition (st : Store) (pos : Nat) : Except Store Store :=
  let (fails, st2) := dbAttempt st
  if fails then Except.error st2
  else Except.ok { st2 with lastPosition := pos }

/-- update_session_stats (send.py lines 795-803) as one committed write. -/
def writeSessionStats (st : Store) (sent failed : Nat) (status : String) :
    Except Store Store :=
  let (fails, st2) := dbAttempt st
  if fails then Except.error st2
  else Except.ok { st2 with sessionStats := some (sent, failed, status) }

/-- send_email (send.py lines 537-588).  The transport result is the given
boolean (returncode zero or not).  The try block logs the outcome; when that
insert raises, the except block logs a FAILED row instead and returns False;
when even that insert raises, the exception propagates to the caller. -/
def sendEmail (st : Store) (recipient : String) (submitOk : Bool) :
    Except Store (Store × Bool) :=
  match appendLog st ⟨recipient, if submitOk then EmailStatus.success else EmailStatus.failed⟩ with
  | Except.ok st2 => Except.ok (st2, submitOk)
  | Except.error st2 =>
    match appendLog st2 ⟨recipient, EmailStatus.failed⟩ with
    | Except.ok st3 => Except.ok (st3, false)
    | Except.error st3 => Except.error st3

/-- The recognized configuration options (send.py lines 153-166). -/
structure Config where
  pauseAfter : Nat
  pauseDuration : Nat
  testInterval : Nat
  delayBetweenEmails : Nat
  maxEmailsPerSession : Nat
  rotationMode : String
  enableTestEmails : Bool
  testEmailRecipients : List String
deriving DecidableEq

/-- The default configuration written by load_configuration. -/
def defaultConfig : Config :=
  { pauseAfter := 100, pauseDuration := 300, testInterval := 50,
    delayBetweenEmails := 1, maxEmailsPerSession := 1000,
    rotationMode := "random", enableTestEmails := true,
    testEmailRecipients := [] }

/-- In-memory state of one send_bulk_emails run: the loop counters and
cursor variable, the store, and the observable pause and probe events. -/
structure BulkState where
  sentCount : Nat
  failedCount : Nat
  currentPosition : Nat
  store : Store
  pauses : List Nat
  probes : List Nat
  finalProbe : Bool
  aborted : Bool
deriving DecidableEq

/-- The pause condition of send.py line 738, with c standing for i + 1. -/
def pauseCondB (cfg : Config) (total c : Nat) : Bool :=
  decide (0 < cfg.pauseAfter) && decide (c % cfg.pauseAfter = 0) && decide (c < total)

/-- The guard of send_test_email at send.py lines 743 and 762: test emails
enabled and a non-empty test recipient list. -/
def probeEnabledB (cfg : Config) : Bool :=
  cfg.enableTestEmails && !cfg.testEmailRecipients.isEmpty

/-- Counter update after one send (send.py lines 728-731). -/
def recordOutcome (st : BulkState) (sent : Bool) : BulkState :=
  if sent then { st with sentCount := st.sentCount + 1 }
  else { st with failedCount := st.failedCount + 1 }

/-- The every-ten-emails session checkpoint (send.py lines 734-735); a failed
write raises, aborting the run. -/
def statsStep (i : Nat) (st : BulkState) : BulkState :=
  if (i + 1) % 10 = 0 then
    match writeSessionStats st.store st.sentCount st.failedCount "RUNNING" with
    | Except.error s => { st with store := s, aborted := true }
    | Except.ok s => { st with store := s }
  else st

/-- The pause branch (send.py lines 738-752): when the pause condition holds
the run pauses, and inside the pause a test email goes out when configured.
send_test_email writes nothing to the store and its own failures are caught. -/
def pauseStep (cfg : Config) (total i : Nat) (st : BulkState) : BulkState :=
  if pauseCondB cfg total (i + 1) then
    if probeEnabledB cfg then
      { st with pauses := st.pauses ++ [i + 1], probes := st.probes ++ [i + 1] }
    else { st with pauses := st.pauses ++ [i + 1] }
  else st

/-- One iteration of the for-loop (send.py lines 718-755): set
current_position to startPos + i + 1, send, update counters, checkpoint every
ten, then the pause branch.  An uncaught store exception aborts the run. -/
def bulkIter (cfg : Config) (startPos total i : Nat) (email : String) (submitOk : Bool)
    (st : BulkState) : BulkState :=
  match sendEmail st.store email submitOk with
  | Except.error s =>
    { st with currentPosition := startPos + i + 1, store := s, aborted := true }
  | Except.ok (s, sent) =>
    let st3 := statsStep i (recordOutcome
      { st with currentPosition := startPos + i + 1, store := s } sent)
    if st3.aborted then st3 else pauseStep cfg total i st3

/-- The for-loop itself; once a store exception has aborted the run the
remaining recipients are never reached. -/
def runBulkAux (cfg : Config) (startPos total : Nat) :
    List (String × Bool) → Nat → BulkState → BulkState
  | [], _, st => st
  | (email, ok) :: rest, i, st =>
    if st.aborted then st
    else runBulkAux cfg startPos total rest (i + 1) (bulkIter cfg startPos total i email ok st)

/-- Loop-local state at entry of send_bulk_emails (send.py lines 702-704). -/
def initialBulkState (startPos : Nat) (store : Store) : BulkState :=
  { sentCount := 0, failedCount := 0, currentPosition := startPos, store := store,
    pauses := [], probes := [], finalProbe := false, aborted := false }

/-- The epilogue of send_bulk_emails (send.py lines 757-763): persist the
cursor, checkpoint COMPLETED, then the final test email when configured. -/
def finalizeBulk (cfg : Config) (st : BulkState) : BulkState :=
  if st.aborted then st
  else
    match writeListPosition st.store st.currentPosition with
    | Except.error s => { st with store := s, aborted := true }
    | Except.ok s =>
      match writeSessionStats s st.sentCount st.failedCount "COMPLETED" with
      | Except.error s2 => { st with store := s2, aborted := true }
      | Except.ok s2 =>
        if probeEnabledB cfg then { st with store := s2, finalProbe := true }
        else { st with store := s2 }

/-- One full pass of the send loop over an already fetched recipient slice,
each recipient paired with its transport outcome. -/
def runBulk (cfg : Config) (pairs : List (String × Bool)) (startPos : Nat)
    (store : Store) : BulkState :=
  finalizeBulk cfg (runBulkAux cfg startPos pairs.length pairs 0 (initialBulkState startPos store))

/-- send_bulk_emails (send.py lines 672-766) driven from the file: the start
position is the stored cursor when resuming, the slice comes from
get_emails_from_list, and an empty slice returns before writing anything. -/
def sendBulkFromFile (cfg : Config) (fileLines : List String) (transport : String → Bool)
    (resume : Bool) (maxEmails : Option Nat) (store : Store) : BulkState :=
  let startPos := if resume then store.lastPosition else 0
  let emails := getEmailsFromList fileLines startPos maxEmails
  if emails.isEmpty then initialBulkState startPos store
  else runBulk cfg (emails.map (fun e => (e, transport e))) startPos store

/-- Where the SIGINT arrives: between two iterations with j iterations
complete, or during iteration j after the current_position assignment of
line 719 but before the log insert of send_email has committed. -/
inductive InterruptPoint where
  | between (j : Nat)
  | duringSend (j : Nat)

/-- The loop-local state the signal handler closure sees at the interrupt. -/
def stateAtInterrupt (cfg : Config) (pairs : List (String × Bool)) (startPos : Nat)
    (store : Store) : InterruptPoint → BulkState
  | InterruptPoint.between j =>
    runBulkAux cfg startPos pairs.length (pairs.take j) 0 (initialBulkState startPos store)
  | InterruptPoint.duringSend j =>
    let st := runBulkAux cfg startPos pairs.length (pairs.take j) 0 (initialBulkState startPos store)
    { st with currentPosition := startPos + j + 1 }

/-- signal_handler (send.py lines 707-712): persist the current cursor value,
then the counters with status INTERRUPTED, then exit. -/
def handleInterrupt (st : BulkState) : Store :=
  match writeListPosition st.store st.currentPosition with
  | Except.error s => s
  | Except.ok s =>
    match writeSessionStats s st.sentCount st.failedCount "INTERRUPTED" with
    | Except.error s2 => s2
    | Except.ok s2 => s2

/-- The pause events produced by iterations i, i+1, ..., i+n-1 of a run over
a slice of the given total length. -/
def pauseEvents (cfg : Config) (total : Nat) : Nat → Nat → List Nat
  | _, 0 => []
  | i, n + 1 =>
    (if pauseCondB cfg total (i + 1) then [i + 1] else []) ++ pauseEvents cfg total (i + 1) n

/-- Recipients in log order. -/
def loggedRecipients (st : Store) : List String :=
  st.logs.map (fun e => e.recipient)

/-- A fresh store: empty log, cursor zero, all writes succeed. -/
def store0 : Store :=
  { failSchedule := [], logs := [], lastPosition := 0, sessionStats := none }

/-- The default configuration with test emails off, as when no test
recipients are configured. -/
def cfgPlain : Config :=
  { defaultConfig with enableTestEmails := false }

/-- Configuration of the probe cadence counterexample: probe interval five,
test emails enabled, defaults elsewhere. -/
def cfgProbeCounter : Config :=
  { defaultConfig with
    testInterval := 5,
    testEmailRecipients := ["admin@example.com"] }

/-- Configuration whose pause threshold is five, test emails enabled. -/
def cfgProbeWitness : Config :=
  { defaultConfig with
    pauseAfter := 5,
    testEmailRecipients := ["admin@example.com"] }

/-- Configuration whose pause threshold is ten, test emails off. -/
def cfgPauseTen : Config :=
  { cfgPlain with pauseAfter := 10 }

/-- Twelve recipients, all delivered by the transport. -/
def pairs12 : List (String × Bool) :=
  List.replicate 12 ("user@example.com", true)

/-- Twenty-five recipients, all delivered by the transport. -/
def pairs25 : List (String × Bool) :=
  List.replicate 25 ("user@example.com", true)

/-- Recipient file of the resume scenario: three invalid lines before the
three addresses. -/
def linesResume : List String :=
  ["bad1", "bad2", "bad3", "a@x.com", "b@y.com", "c@z.com"]

/-- The slice the first run fetches from position zero. -/
def pairsResume : List (String × Bool) :=
  (getEmailsFromList linesResume 0 none).map (fun e => (e, true))

/-- First run over linesResume, interrupted between iterations after two
recipients are fully processed. -/
def interruptedRun : BulkState :=
  stateAtInterrupt cfgPlain pairsResume 0 store0 (InterruptPoint.between 2)

/-- Store persisted by the signal handler of the interrupted run. -/
def storeAfterSignal : Store :=
  handleInterrupt interruptedRun

/-- The resumed run over the same file, starting from the stored cursor. -/
def resumedRun : BulkState :=
  sendBulkFromFile cfgPlain linesResume (fun _ => true) true none storeAfterSignal

/-- Recipient file of the lost-recipient scenario: two valid lines. -/
def linesTwo : List String :=
  ["a@x.com", "b@y.com"]

/-- The slice the first run fetches from position zero. -/
def pairsTwo : List (String × Bool) :=
  (getEmailsFromList linesTwo 0 none).map (fun e => (e, true))

/-- First run over linesTwo, interrupted during the very first send after the
cursor variable was advanced but before the log insert committed. -/
def midSendRun : BulkState :=
  stateAtInterrupt cfgPlain pairsTwo 0 store0 (InterruptPoint.duringSend 0)

/-- Store persisted by the signal handler at that point. -/
def storeAfterMidSignal : Store :=
  handleInterrupt midSendRun

/-- The resumed run over the same two-line file. -/
def resumedAfterLoss : BulkState :=
  sendBulkFromFile cfgPlain linesTwo (fun _ => true) true none storeAfterMidSignal

/-- The weighted pool of the spec convergence example: weights one and three. -/
def pool5 : List PoolItem :=
  [⟨1, 1⟩, ⟨2, 3⟩]

/-- Whether the first list is an initial segment of the second. -/
def listStartsWith : List Char → List Char → Bool
  | [], _ => true
  | _ :: _, [] => false
  | p :: ps, c :: cs => (p == c) && listStartsWith ps cs

/-- Whether the pattern occurs contiguously anywhere in the list. -/
def tokenOccurs (pat : List Char) : List Char → Bool
  | [] => pat.isEmpty
  | c :: cs => listStartsWith pat (c :: cs) || tokenOccurs pat cs

/-! ## Theorems -/

/-- With start position zero and no limit, the fetch loop is exactly the
strip-then-filter of the file lines. -/
theorem getEmailsAux_zero_none (lines : List String) :
    ∀ (i : Nat) (acc : List String),
      getEmailsAux lines i 0 none acc
        = acc.reverse ++ (lines.map pyStrip).filter validEmail := by
  induction lines with
  | nil => intro i acc; simp [getEmailsAux]
  | cons l rest ih =>
    intro i acc
    by_cases h : validEmail (pyStrip l)
    · simp [getEmailsAux, limitReached, h, ih, List.filter_cons]
    · simp [getEmailsAux, limitReached, h, ih, List.filter_cons]

/-- Reading a whole list from position zero is the strip-then-filter of its
lines. -/
theorem getEmails_zero_none (lines : List String) :
    getEmailsFromList lines 0 none = (lines.map pyStrip).filter validEmail := by
  simpa [getEmailsFromList] using getEmailsAux_zero_none lines 0 []

/-- Claim C9: reading a recipient file yields exactly those lines that are
non-empty after trimming and contain the at sign, in file order, every other
line silently skipped; the file of the spec yields exactly a@x.com, b@y.com. -/
theorem c9_invalid_line_filtering :
    (∀ lines : List String,
        getEmailsFromList lines 0 none = (lines.map pyStrip).filter validEmail)
    ∧ getEmailsFromList (pyLines "a@x.com\n\nnotanemail\nb@y.com\n") 0 none
        = ["a@x.com", "b@y.com"] :=
  ⟨getEmails_zero_none, by decide⟩

/-- The counting fold of add_email_list adds the filtered length to its
accumulator. -/
theorem addEmailListCount_foldl (lines : List String) :
    ∀ n : Nat,
      lines.foldl (fun c line => if validEmail (pyStrip line) then c + 1 else c) n
        = n + ((lines.map pyStrip).filter validEmail).length := by
  induction lines with
  | nil => intro n; simp
  | cons l rest ih =>
    intro n
    by_cases h : validEmail (pyStrip l)
    · simp [h, ih, List.filter_cons]; omega
    · simp [h, ih, List.filter_cons]

/-- Claim C10: the totalEmails count recorded by add_email_list equals the
length of the list read back in full by get_emails_from_list, because both
apply the same validity filter. -/
theorem c10_count_consistency (lines : List String) :
    addEmailListCount lines = (getEmailsFromList lines 0 none).length := by
  rw [getEmails_zero_none]
  simpa [addEmailListCount] using addEmailListCount_foldl lines 0

/-- Claim C6 counterexample: with template body made of the email placeholder
and a recipient value that itself carries the timestamp token, rendering
expands the injected token — the output is the timestamp value and the token
does not appear verbatim anywhere in it. -/
theorem c6_substitution_counterexample :
    applyReplacements "\x7b\x7bemail\x7d\x7d"
        (buildReplacements "\x7b\x7btimestamp\x7d\x7d" "2024" "T1" "S" "N" "F" []) = "2024"
    ∧ tokenOccurs ("\x7b\x7btimestamp\x7d\x7d").data
        (applyReplacements "\x7b\x7bemail\x7d\x7d"
          (buildReplacements "\x7b\x7btimestamp\x7d\x7d" "2024" "T1" "S" "N" "F" [])).data
      = false := by
  decide

/-- Claim C6 amended: substitution is sequential, one global replace per key
in list order, so rendering with a split replacement list factors through the
intermediate content — every later replacement re-scans the whole content
produced so far, already substituted values included. -/
theorem c6_substitution_amended (content : String) (r1 r2 : List (String × String)) :
    applyReplacements content (r1 ++ r2)
      = applyReplacements (applyReplacements content r1) r2 := by
  simp [applyReplacements, List.foldl_append]

/-- Claim C3 counterexample: with a template table holding no active row,
load_templates succeeds and produces three active default templates, and
start_session still inserts a session row whenever an email list resolves. -/
theorem c3_empty_pool_counterexample :
    ((loadTemplates [⟨1, "T", "x", false, 1⟩] 2).2).length = 3
    ∧ startSession [⟨1, "Clients", "clients.txt", 0, 0⟩] none none "s1"
        = some ("s1", "STARTED") := by
  decide

/-- Claim C3 amended: selection over an empty pool returns no item rather
than raising; a template table with zero active rows does not fail — the
loader seeds three active defaults; and start_session creates a session row
exactly when an email list resolves, never consulting the template pools. -/
theorem c3_empty_pool_amended (rows : List TemplateRow) (nextId : Nat)
    (mode : String) (draw : ℚ) (idx : Nat)
    (lists : List EmailListRow) (l : EmailListRow) (sid : String)
    (hz : (rows.filter (fun t => t.isActive)).length = 0)
    (hh : lists.head? = some l) :
    ((loadTemplates rows nextId).2).length = 3
    ∧ selectRandomItem mode [] draw idx = none
    ∧ startSession [] none none sid = none
    ∧ startSession lists none none sid = some (sid, "STARTED") := by
  refine ⟨?_, ?_, ?_, ?_⟩
  · have hf : rows.filter (fun t => t.isActive) = [] := List.length_eq_zero.mp hz
    simp [loadTemplates, hz, List.filter_append, hf, defaultTemplateRows]
  · simp [selectRandomItem]
  · simp [startSession, resolveEmailList]
  · simp [startSession, resolveEmailList, hh]

/-- Claim C3 witness: the amended statement at a one-row inactive table and a
one-list store. -/
theorem c3_empty_pool_witness :
    ((loadTemplates [⟨1, "T", "x", false, 1⟩] 2).2).length = 3
    ∧ selectRandomItem "weighted" [] 0 0 = none
    ∧ startSession [] none none "s1" = none
    ∧ startSession [⟨1, "Clients", "clients.txt", 0, 0⟩] none none "s1"
        = some ("s1", "STARTED") :=
  c3_empty_pool_amended [⟨1, "T", "x", false, 1⟩] 2 "weighted" 0 0
    [⟨1, "Clients", "clients.txt", 0, 0⟩] ⟨1, "Clients", "clients.txt", 0, 0⟩ "s1"
    (by decide) rfl

/-- Away from the cumulative boundaries the code walk and the spec walk
agree. -/
theorem weightedWalk_eq_spec (items : List PoolItem) (r : ℚ) :
    ∀ current : ℚ, (∀ c ∈ cumulativeWeights items current, r ≠ c) →
      weightedWalk items r current = weightedWalkSpec items r current := by
  induction items with
  | nil => intro current _; rfl
  | cons it rest ih =>
    intro current h
    have hne : r ≠ current + (it.weight : ℚ) := h _ (by simp [cumulativeWeights])
    by_cases hle : r ≤ current + (it.weight : ℚ)
    · have hlt : r < current + (it.weight : ℚ) := lt_of_le_of_ne hle hne
      simp [weightedWalk, weightedWalkSpec, hle, hlt]
    · have hnlt : ¬ r < current + (it.weight : ℚ) := fun hl => hle hl.le
      simp only [weightedWalk, weightedWalkSpec, if_neg hle, if_neg hnlt]
      exact ih (current + (it.weight : ℚ)) (fun c hc => h c (by simp [cumulativeWeights, hc]))

/-- A draw below the remaining total weight never falls through the walk. -/
theorem weightedWalk_total (items : List PoolItem) :
    ∀ (current r : ℚ), items ≠ [] → r ≤ current + (totalWeight items : ℚ) →
      (weightedWalk items r current).isSome := by
  induction items with
  | nil => intro _ _ hne _; exact absurd rfl hne
  | cons it rest ih =>
    intro current r _ hr
    by_cases hle : r ≤ current + (it.weight : ℚ)
    · simp [weightedWalk, hle]
    · have hrest : rest ≠ [] := by
        rintro rfl
        apply hle
        simpa [totalWeight] using hr
      have hcast : (totalWeight (it :: rest) : ℚ)
          = (it.weight : ℚ) + (totalWeight rest : ℚ) := by
        simp [totalWeight]
      have hr2 : r ≤ (current + (it.weight : ℚ)) + (totalWeight rest : ℚ) := by
        rw [hcast] at hr; linarith
      simp only [weightedWalk, if_neg hle]
      exact ih (current + (it.weight : ℚ)) r hrest hr2

/-- Claim C5 counterexample: at the boundary draw one over the pool of
weights one and three, the code returns the first variant (its condition is
rand at most cumulative), while the first variant whose cumulative weight
strictly exceeds the draw is the second. -/
theorem c5_weighted_counterexample :
    selectRandomItem "weighted" pool5 1 0 = some ⟨1, 1⟩
    ∧ weightedWalkSpec pool5 1 0 = some ⟨2, 3⟩ := by
  constructor
  · norm_num [selectRandomItem, weightedWalk, pool5]
  · norm_num [weightedWalkSpec, pool5]

/-- Claim C5 amended: weighted selection returns the first variant whose
cumulative weight is greater than or equal to the draw; for every draw below
the total weight that is not exactly a cumulative boundary this coincides
with the first variant whose cumulative weight strictly exceeds the draw, so
each variant of weight w is still selected on a draw set of measure w. -/
theorem c5_weighted_amended (items : List PoolItem) (r : ℚ) (idx : Nat)
    (hne : items ≠ [])
    (hr : r ≤ (totalWeight items : ℚ))
    (hb : ∀ c ∈ cumulativeWeights items 0, r ≠ c) :
    selectRandomItem "weighted" items r idx = weightedWalkSpec items r 0 := by
  have heq : weightedWalk items r 0 = weightedWalkSpec items r 0 :=
    weightedWalk_eq_spec items r 0 hb
  have hsome : (weightedWalk items r 0).isSome :=
    weightedWalk_total items 0 r hne (by simpa using hr)
  rw [heq] at hsome
  obtain ⟨it, hit⟩ := Option.isSome_iff_exists.mp hsome
  have hemp : items.isEmpty = false := by
    cases items with
    | nil => exact absurd rfl hne
    | cons a l => rfl
  simp [selectRandomItem, hemp, heq, hit]

/-- Claim C5 witness: the amended statement at the pool of weights one and
three with the interior draw one half. -/
theorem c5_weighted_witness :
    selectRandomItem "weighted" pool5 ((1 : ℚ)/2) 0
      = weightedWalkSpec pool5 ((1 : ℚ)/2) 0 :=
  c5_weighted_amended pool5 ((1 : ℚ)/2) 0 (by decide)
    (by norm_num [totalWeight, pool5])
    (by norm_num [cumulativeWeights, pool5])

/-- Claim C1 (code bug): over a file with three invalid lines before three
addresses, interrupting after two processed recipients persists cursor two,
and the resumed run — which skips two raw lines instead of two recipients —
reprocesses both already-sent addresses before the remaining one: two
re-sends, where the claim allows at most one. -/
theorem c1_resume_not_exact :
    loggedRecipients interruptedRun.store = ["a@x.com", "b@y.com"]
    ∧ storeAfterSignal.lastPosition = 2
    ∧ (loggedRecipients resumedRun.store).drop 2 = ["a@x.com", "b@y.com", "c@z.com"]
    ∧ 2 ≤ (((loggedRecipients resumedRun.store).drop 2).filter
        (fun e => (loggedRecipients interruptedRun.store).contains e)).length := by
  decide

/-- Claim C2 (code bug): an interrupt during the first send — after the
cursor variable was advanced at the top of the iteration but before the log
insert committed — persists cursor one with an empty log and status
INTERRUPTED, so the resumed run processes only the second recipient and the
first is silently lost, contradicting the log-before-cursor ordering the
claim states. -/
theorem c2_cursor_persisted_before_log :
    storeAfterMidSignal.lastPosition = 1
    ∧ storeAfterMidSignal.logs = []
    ∧ storeAfterMidSignal.sessionStats = some (0, 0, "INTERRUPTED")
    ∧ loggedRecipients resumedAfterLoss.store = ["b@y.com"]
    ∧ ¬ ("a@x.com" ∈ loggedRecipients resumedAfterLoss.store) := by
  decide

/-- Claim C4 counterexample: with the first log insert failing and the
fallback insert succeeding, the run does not abort — the engine records the
recipient as FAILED and continues to the next one, which is sent and logged. -/
theorem c4_persistence_counterexample :
    (runBulk cfgPlain [("a@x.com", true), ("b@y.com", true)] 0
        { store0 with failSchedule := [true] }).aborted = false
    ∧ (runBulk cfgPlain [("a@x.com", true), ("b@y.com", true)] 0
        { store0 with failSchedule := [true] }).store.logs
      = [⟨"a@x.com", EmailStatus.failed⟩, ⟨"b@y.com", EmailStatus.success⟩] := by
  decide

/-- Claim C7 counterexample: with the configured probe interval set to five
and twelve processed recipients, no probe fires at counts five or ten — the
configured test interval is never consulted by the loop. -/
theorem c7_probe_counterexample :
    cfgProbeCounter.testInterval = 5
    ∧ (runBulk cfgProbeCounter pairs12 0 store0).probes = [] := by
  decide

/-- With an exhausted failure schedule the log insert always succeeds and
send_email returns the transport outcome. -/
theorem sendEmail_nil (st : Store) (h : st.failSchedule = []) (r : String) (ok : Bool) :
    sendEmail st r ok
      = Except.ok ({ st with logs := st.logs ++
          [⟨r, if ok then EmailStatus.success else EmailStatus.failed⟩] }, ok) := by
  obtain ⟨fs, lg, lp, ss⟩ := st
  simp at h
  subst h
  rfl

/-- With an exhausted failure schedule the cursor write succeeds. -/
theorem writeListPosition_nil (st : Store) (h : st.failSchedule = []) (pos : Nat) :
    writeListPosition st pos = Except.ok { st with lastPosition := pos } := by
  obtain ⟨fs, lg, lp, ss⟩ := st
  simp at h
  subst h
  rfl

/-- With an exhausted failure schedule the stats write succeeds. -/
theorem writeSessionStats_nil (st : Store) (h : st.failSchedule = []) (sent failed : Nat)
    (status : String) :
    writeSessionStats st sent failed status
      = Except.ok { st with sessionStats := some (sent, failed, status) } := by
  obtain ⟨fs, lg, lp, ss⟩ := st
  simp at h
  subst h
  rfl

/-- Closed form of the stats checkpoint when writes succeed. -/
theorem statsStep_nil (i : Nat) (st : BulkState) (h : st.store.failSchedule = []) :
    statsStep i st
      = if (i + 1) % 10 = 0 then
          { st with store :=
            { st.store with sessionStats := some (st.sentCount, st.failedCount, "RUNNING") } }
        else st := by
  by_cases h10 : (i + 1) % 10 = 0
  · simp [statsStep, h10, writeSessionStats_nil st.store h]
  · simp [statsStep, h10]

/-- Projections of the pause branch. -/
theorem pauseStep_proj (cfg : Config) (total i : Nat) (st : BulkState) :
    (pauseStep cfg total i st).pauses
        = st.pauses ++ (if pauseCondB cfg total (i + 1) then [i + 1] else [])
    ∧ (pauseStep cfg total i st).probes
        = st.probes ++ (if (pauseCondB cfg total (i + 1) && probeEnabledB cfg) then [i + 1] else [])
    ∧ (pauseStep cfg total i st).store = st.store
    ∧ (pauseStep cfg total i st).aborted = st.aborted
    ∧ (pauseStep cfg total i st).finalProbe = st.finalProbe := by
  cases hpc : pauseCondB cfg total (i + 1) <;> cases hpe : probeEnabledB cfg <;>
    simp [pauseStep, hpc, hpe]

/-- Projections of the stats checkpoint when writes succeed. -/
theorem statsStep_proj (i : Nat) (st : BulkState) (h : st.store.failSchedule = []) :
    (statsStep i st).pauses = st.pauses
    ∧ (statsStep i st).probes = st.probes
    ∧ (statsStep i st).aborted = st.aborted
    ∧ (statsStep i st).finalProbe = st.finalProbe
    ∧ (statsStep i st).store.failSchedule = [] := by
  rw [statsStep_nil i st h]
  by_cases h10 : (i + 1) % 10 = 0 <;> simp [h10, h]

/-- Projections of the counter update. -/
theorem recordOutcome_proj (st : BulkState) (b : Bool) :
    (recordOutcome st b).pauses = st.pauses
    ∧ (recordOutcome st b).probes = st.probes
    ∧ (recordOutcome st b).aborted = st.aborted
    ∧ (recordOutcome st b).finalProbe = st.finalProbe
    ∧ (recordOutcome st b).store = st.store := by
  cases b <;> simp [recordOutcome]

/-- Closed form of one loop iteration when no store write fails. -/
theorem bulkIter_closed (cfg : Config) (startPos total i : Nat) (email : String) (ok : Bool)
    (st : BulkState) (h : st.store.failSchedule = []) (ha : st.aborted = false) :
    bulkIter cfg startPos total i email ok st
      = pauseStep cfg total i (statsStep i (recordOutcome
          { st with currentPosition := startPos + i + 1,
                    store := { st.store with logs := st.store.logs ++
                      [⟨email, if ok then EmailStatus.success else EmailStatus.failed⟩] } } ok)) := by
  have hse := sendEmail_nil st.store h email ok
  have hsched : (recordOutcome
      { st with currentPosition := startPos + i + 1,
                store := { st.store with logs := st.store.logs ++
                  [⟨email, if ok then EmailStatus.success else EmailStatus.failed⟩] } } ok).store.failSchedule
      = [] := by
    rw [(recordOutcome_proj _ ok).2.2.2.2]
    simp [h]
  have hab : (statsStep i (recordOutcome
      { st with currentPosition := startPos + i + 1,
                store := { st.store with logs := st.store.logs ++
                  [⟨email, if ok then EmailStatus.success else EmailStatus.failed⟩] } } ok)).aborted
      = false := by
    rw [(statsStep_proj _ _ hsched).2.2.1, (recordOutcome_proj _ ok).2.2.1]
    simp [ha]
  simp [bulkIter, hse, hab]

/-- Inductive characterisation of one run of the loop when no store write
fails: no abort, schedule stays exhausted, and pause and probe events are
exactly the ones of the pause condition. -/
theorem runBulkAux_events (cfg : Config) (startPos total : Nat) :
    ∀ (pairs : List (String × Bool)) (i : Nat) (st : BulkState),
      st.store.failSchedule = [] → st.aborted = false →
      (runBulkAux cfg startPos total pairs i st).aborted = false
      ∧ (runBulkAux cfg startPos total pairs i st).store.failSchedule = []
      ∧ (runBulkAux cfg startPos total pairs i st).pauses
          = st.pauses ++ pauseEvents cfg total i pairs.length
      ∧ (runBulkAux cfg startPos total pairs i st).probes
          = st.probes ++ (if probeEnabledB cfg then pauseEvents cfg total i pairs.length else [])
      ∧ (runBulkAux cfg startPos total pairs i st).finalProbe = st.finalProbe := by
  intro pairs
  induction pairs with
  | nil =>
    intro i st h ha
    simp [runBulkAux, pauseEvents, ha, h]
  | cons p rest ih =>
    intro i st h ha
    obtain ⟨email, ok⟩ := p
    have hstep : runBulkAux cfg startPos total ((email, ok) :: rest) i st
        = runBulkAux cfg startPos total rest (i + 1) (bulkIter cfg startPos total i email ok st) := by
      simp [runBulkAux, ha]
    have hcl := bulkIter_closed cfg startPos total i email ok st h ha
    have hrp := recordOutcome_proj
      { st with currentPosition := startPos + i + 1,
                store := { st.store with logs := st.store.logs ++
                  [⟨email, if ok then EmailStatus.success else EmailStatus.failed⟩] } } ok
    have hsched2 : (recordOutcome
        { st with currentPosition := startPos + i + 1,
                  store := { st.store with logs := st.store.logs ++
                    [⟨email, if ok then EmailStatus.success else EmailStatus.failed⟩] } } ok).store.failSchedule
        = [] := by
      rw [hrp.2.2.2.2]; simp [h]
    have hsp := statsStep_proj i _ hsched2
    have hpp := pauseStep_proj cfg total i (statsStep i (recordOutcome
      { st with currentPosition := startPos + i + 1,
                store := { st.store with logs := st.store.logs ++
                  [⟨email, if ok then EmailStatus.success else EmailStatus.failed⟩] } } ok))
    have h2 : (bulkIter cfg startPos total i email ok st).store.failSchedule = [] := by
      rw [hcl, hpp.2.2.1]; exact hsp.2.2.2.2
    have h2a : (bulkIter cfg startPos total i email ok st).aborted = false := by
      rw [hcl, hpp.2.2.2.1, hsp.2.2.1, hrp.2.2.1]; simp [ha]
    have h2p : (bulkIter cfg startPos total i email ok st).pauses
        = st.pauses ++ (if pauseCondB cfg total (i + 1) then [i + 1] else []) := by
      rw [hcl, hpp.1, hsp.1, hrp.1]
    have h2pr : (bulkIter cfg startPos total i email ok st).probes
        = st.probes ++ (if (pauseCondB cfg total (i + 1) && probeEnabledB cfg) then [i + 1] else []) := by
      rw [hcl, hpp.2.1, hsp.2.1, hrp.2.1]
    have h2f : (bulkIter cfg startPos total i email ok st).finalProbe = st.finalProbe := by
      rw [hcl, hpp.2.2.2.2, hsp.2.2.2.1, hrp.2.2.2.1]
    obtain ⟨ra, rs, rp, rpr, rf⟩ := ih (i + 1) (bulkIter cfg startPos total i email ok st) h2 h2a
    rw [hstep]
    refine ⟨ra, rs, ?_, ?_, ?_⟩
    · rw [rp, h2p]
      show _ = st.pauses ++ pauseEvents cfg total i (rest.length + 1)
      rw [pauseEvents, List.append_assoc]
    · rw [rpr, h2pr]
      show _ = st.probes ++ (if probeEnabledB cfg then pauseEvents cfg total i (rest.length + 1) else [])
      rw [pauseEvents]
      cases hpe : probeEnabledB cfg <;> cases hpc : pauseCondB cfg total (i + 1) <;>
        simp [hpe, hpc]
    · rw [rf, h2f]

/-- Projections of the run epilogue when no store write fails. -/
theorem finalizeBulk_proj (cfg : Config) (st : BulkState)
    (h : st.store.failSchedule = []) (ha : st.aborted = false) :
    (finalizeBulk cfg st).pauses = st.pauses
    ∧ (finalizeBulk cfg st).probes = st.probes
    ∧ (finalizeBulk cfg st).finalProbe = (probeEnabledB cfg || st.finalProbe)
    ∧ (finalizeBulk cfg st).aborted = false := by
  have h1 := writeListPosition_nil st.store h st.currentPosition
  have h2 := writeSessionStats_nil { st.store with lastPosition := st.currentPosition }
    (by simp [h]) st.sentCount st.failedCount "COMPLETED"
  cases hpe : probeEnabledB cfg <;> simp [finalizeBulk, ha, h1, h2, hpe]

/-- The pause events of a full run with a reliable store. -/
theorem runBulk_pauses (cfg : Config) (pairs : List (String × Bool)) (startPos : Nat)
    (store : Store) (h : store.failSchedule = []) :
    (runBulk cfg pairs startPos store).pauses
      = pauseEvents cfg pairs.length 0 pairs.length := by
  obtain ⟨ra, rs, rp, rpr, rf⟩ := runBulkAux_events cfg startPos pairs.length pairs 0
    (initialBulkState startPos store) (by simp [initialBulkState, h]) (by simp [initialBulkState])
  have hfin := finalizeBulk_proj cfg _ rs ra
  rw [runBulk, hfin.1, rp]
  simp [initialBulkState]

/-- The probe events of a full run with a reliable store. -/
theorem runBulk_probes (cfg : Config) (pairs : List (String × Bool)) (startPos : Nat)
    (store : Store) (h : store.failSchedule = []) :
    (runBulk cfg pairs startPos store).probes
      = (if probeEnabledB cfg then pauseEvents cfg pairs.length 0 pairs.length else []) := by
  obtain ⟨ra, rs, rp, rpr, rf⟩ := runBulkAux_events cfg startPos pairs.length pairs 0
    (initialBulkState startPos store) (by simp [initialBulkState, h]) (by simp [initialBulkState])
  have hfin := finalizeBulk_proj cfg _ rs ra
  rw [runBulk, hfin.2.1, rpr]
  simp [initialBulkState]

/-- The final probe of a full run with a reliable store fires exactly when
test emails are enabled with a non-empty audience. -/
theorem runBulk_finalProbe (cfg : Config) (pairs : List (String × Bool)) (startPos : Nat)
    (store : Store) (h : store.failSchedule = []) :
    (runBulk cfg pairs startPos store).finalProbe = probeEnabledB cfg := by
  obtain ⟨ra, rs, rp, rpr, rf⟩ := runBulkAux_events cfg startPos pairs.length pairs 0
    (initialBulkState startPos store) (by simp [initialBulkState, h]) (by simp [initialBulkState])
  have hfin := finalizeBulk_proj cfg _ rs ra
  rw [runBulk, hfin.2.2.1, rf]
  simp [initialBulkState]

/-- Membership in the pause event list. -/
theorem mem_pauseEvents (cfg : Config) (total : Nat) :
    ∀ (n i c : Nat), c ∈ pauseEvents cfg total i n
      ↔ (i < c ∧ c ≤ i + n ∧ pauseCondB cfg total c = true) := by
  intro n
  induction n with
  | zero =>
    intro i c
    simp [pauseEvents]
    omega
  | succ n ih =>
    intro i c
    rw [pauseEvents, List.mem_append, ih (i + 1)]
    cases hc : pauseCondB cfg total (i + 1) with
    | false =>
      simp only [hc, Bool.false_eq_true, if_false, List.not_mem_nil, false_or]
      constructor
      · rintro ⟨h1, h2, h3⟩
        exact ⟨by omega, by omega, h3⟩
      · rintro ⟨h1, h2, h3⟩
        refine ⟨?_, by omega, h3⟩
        rcases Nat.lt_or_ge (i + 1) c with hlt | hge
        · exact hlt
        · have hce : c = i + 1 := by omega
          rw [hce] at h3
          rw [h3] at hc
          cases hc
    | true =>
      simp only [hc, if_true, List.mem_singleton]
      constructor
      · rintro (rfl | ⟨h1, h2, h3⟩)
        · exact ⟨by omega, by omega, hc⟩
        · exact ⟨by omega, by omega, h3⟩
      · rintro ⟨h1, h2, h3⟩
        by_cases hce : c = i + 1
        · exact Or.inl hce
        · exact Or.inr ⟨by omega, by omega, h3⟩

/-- Claim C8: with a positive pause threshold p, the run pauses exactly after
each processed count that is a multiple of p while recipients remain, and
never after the final recipient. -/
theorem c8_pause_cadence (cfg : Config) (pairs : List (String × Bool)) (startPos : Nat)
    (store : Store) (hp : 0 < cfg.pauseAfter) (hs : store.failSchedule = []) (c : Nat) :
    c ∈ (runBulk cfg pairs startPos store).pauses
      ↔ (0 < c ∧ c < pairs.length ∧ c % cfg.pauseAfter = 0) := by
  rw [runBulk_pauses cfg pairs startPos store hs, mem_pauseEvents]
  unfold pauseCondB
  simp only [Bool.and_eq_true, decide_eq_true_eq]
  constructor
  · rintro ⟨h1, h2, ⟨⟨hg, hm⟩, hl⟩⟩
    exact ⟨h1, hl, hm⟩
  · rintro ⟨h1, h2, h3⟩
    exact ⟨h1, by omega, ⟨⟨hp, h3⟩, h2⟩⟩

/-- Claim C8 witness: pause threshold ten over twenty-five recipients pauses
exactly after the tenth and the twentieth, never after the final one. -/
theorem c8_pause_witness :
    0 < cfgPauseTen.pauseAfter
    ∧ 10 ∈ (runBulk cfgPauseTen pairs25 0 store0).pauses
    ∧ 20 ∈ (runBulk cfgPauseTen pairs25 0 store0).pauses
    ∧ ¬ 25 ∈ (runBulk cfgPauseTen pairs25 0 store0).pauses := by
  refine ⟨by decide, ?_, ?_, ?_⟩
  · exact (c8_pause_cadence cfgPauseTen pairs25 0 store0 (by decide) rfl 10).mpr (by decide)
  · exact (c8_pause_cadence cfgPauseTen pairs25 0 store0 (by decide) rfl 20).mpr (by decide)
  · intro hmem
    exact absurd ((c8_pause_cadence cfgPauseTen pairs25 0 store0 (by decide) rfl 25).mp hmem)
      (by decide)

/-- The pause branch reads only the pause threshold and the test email
settings of the configuration. -/
theorem pauseStep_config (cfg cfg' : Config)
    (h1 : cfg'.pauseAfter = cfg.pauseAfter)
    (h2 : cfg'.enableTestEmails = cfg.enableTestEmails)
    (h3 : cfg'.testEmailRecipients = cfg.testEmailRecipients) :
    pauseStep cfg' = pauseStep cfg := by
  funext total i st
  simp [pauseStep, pauseCondB, probeEnabledB, h1, h2, h3]

/-- One loop iteration reads only those configuration fields. -/
theorem bulkIter_config (cfg cfg' : Config)
    (h1 : cfg'.pauseAfter = cfg.pauseAfter)
    (h2 : cfg'.enableTestEmails = cfg.enableTestEmails)
    (h3 : cfg'.testEmailRecipients = cfg.testEmailRecipients) :
    bulkIter cfg' = bulkIter cfg := by
  funext startPos total i email ok st
  unfold bulkIter
  rw [pauseStep_config cfg cfg' h1 h2 h3]

/-- The whole loop reads only those configuration fields. -/
theorem runBulkAux_config (cfg cfg' : Config)
    (h1 : cfg'.pauseAfter = cfg.pauseAfter)
    (h2 : cfg'.enableTestEmails = cfg.enableTestEmails)
    (h3 : cfg'.testEmailRecipients = cfg.testEmailRecipients)
    (startPos total : Nat) :
    ∀ (pairs : List (String × Bool)) (i : Nat) (st : BulkState),
      runBulkAux cfg' startPos total pairs i st = runBulkAux cfg startPos total pairs i st := by
  intro pairs
  induction pairs with
  | nil => intro i st; rfl
  | cons p rest ih =>
    intro i st
    obtain ⟨email, ok⟩ := p
    simp only [runBulkAux, bulkIter_config cfg cfg' h1 h2 h3, ih]

/-- A full run reads only those configuration fields; in particular the
configured test interval is never consulted. -/
theorem runBulk_config (cfg cfg' : Config)
    (h1 : cfg'.pauseAfter = cfg.pauseAfter)
    (h2 : cfg'.enableTestEmails = cfg.enableTestEmails)
    (h3 : cfg'.testEmailRecipients = cfg.testEmailRecipients)
    (pairs : List (String × Bool)) (startPos : Nat) (store : Store) :
    runBulk cfg' pairs startPos store = runBulk cfg pairs startPos store := by
  have hpe : probeEnabledB cfg' = probeEnabledB cfg := by
    simp [probeEnabledB, h2, h3]
  unfold runBulk
  rw [runBulkAux_config cfg cfg' h1 h2 h3 startPos pairs.length pairs 0]
  unfold finalizeBulk
  rw [hpe]

/-- Claim C7 amended: test email probes fire exactly at the pause boundaries
— processed count a positive multiple of the pause threshold with recipients
remaining — provided test emails are enabled with a non-empty audience, plus
one final probe on completion; the configured test interval is never
consulted and no probe number is recorded. -/
theorem c7_probe_amended (cfg : Config) (pairs : List (String × Bool)) (startPos : Nat)
    (store : Store) (hs : store.failSchedule = [])
    (he : cfg.enableTestEmails = true) (hr : cfg.testEmailRecipients ≠ []) :
    (∀ c : Nat, c ∈ (runBulk cfg pairs startPos store).probes
        ↔ (0 < cfg.pauseAfter ∧ 0 < c ∧ c < pairs.length ∧ c % cfg.pauseAfter = 0))
    ∧ (runBulk cfg pairs startPos store).finalProbe = true
    ∧ (∀ k : Nat, runBulk { cfg with testInterval := k } pairs startPos store
        = runBulk cfg pairs startPos store) := by
  have hie : cfg.testEmailRecipients.isEmpty = false := by
    cases hc2 : cfg.testEmailRecipients with
    | nil => exact absurd hc2 hr
    | cons a l => rfl
  have hpe : probeEnabledB cfg = true := by
    simp [probeEnabledB, he, hie]
  refine ⟨?_, ?_, ?_⟩
  · intro c
    rw [runBulk_probes cfg pairs startPos store hs, hpe, if_pos rfl, mem_pauseEvents]
    unfold pauseCondB
    simp only [Bool.and_eq_true, decide_eq_true_eq]
    constructor
    · rintro ⟨hc1, hc2, ⟨⟨hg, hm⟩, hl⟩⟩
      exact ⟨hg, hc1, hl, hm⟩
    · rintro ⟨hg, hc1, hl, hm⟩
      exact ⟨hc1, by omega, ⟨⟨hg, hm⟩, hl⟩⟩
  · rw [runBulk_finalProbe cfg pairs startPos store hs, hpe]
  · intro k
    exact runBulk_config cfg { cfg with testInterval := k } rfl rfl rfl pairs startPos store

/-- Claim C7 witness: pause threshold five, test emails enabled, twelve
recipients — the probe fires at count five and the final probe fires. -/
theorem c7_probe_witness :
    5 ∈ (runBulk cfgProbeWitness pairs12 0 store0).probes
    ∧ (runBulk cfgProbeWitness pairs12 0 store0).finalProbe = true := by
  obtain ⟨hmem, hfin, _⟩ := c7_probe_amended cfgProbeWitness pairs12 0 store0 rfl rfl (by decide)
  exact ⟨(hmem 5).mpr (by decide), hfin⟩

/-- Once a store exception has aborted the run, the loop touches nothing
further. -/
theorem runBulkAux_aborted_id (cfg : Config) (startPos total : Nat) :
    ∀ (pairs : List (String × Bool)) (i : Nat) (st : BulkState), st.aborted = true →
      runBulkAux cfg startPos total pairs i st = st := by
  intro pairs
  induction pairs with
  | nil => intro i st _; rfl
  | cons p rest ih =>
    intro i st h
    obtain ⟨email, ok⟩ := p
    simp [runBulkAux, h]

/-- Claim C4 amended: a failed log append is caught inside send_email, which
attempts one fallback FAILED entry — when the fallback commits the engine
counts the recipient as failed and continues to the next one; only when the
fallback also fails does the exception propagate and abort the run, leaving
later recipients unprocessed; a failed checkpoint write likewise raises. -/
theorem c4_persistence_amended (st : Store) (r : String) (ok : Bool)
    (cfg : Config) (startPos total i : Nat) (pairs : List (String × Bool)) (bst : BulkState) :
    (∀ rest : List Bool, st.failSchedule = true :: false :: rest →
        sendEmail st r ok
          = Except.ok (⟨rest, st.logs ++ [⟨r, EmailStatus.failed⟩],
              st.lastPosition, st.sessionStats⟩, false))
    ∧ (st.failSchedule = [true] →
        sendEmail st r ok
          = Except.ok (⟨[], st.logs ++ [⟨r, EmailStatus.failed⟩],
              st.lastPosition, st.sessionStats⟩, false))
    ∧ (∀ rest : List Bool, st.failSchedule = true :: true :: rest →
        sendEmail st r ok = Except.error { st with failSchedule := rest })
    ∧ (∀ (sent failed : Nat) (status : String) (rest : List Bool),
        st.failSchedule = true :: rest →
        writeSessionStats st sent failed status = Except.error { st with failSchedule := rest })
    ∧ (bst.aborted = true → runBulkAux cfg startPos total pairs i bst = bst) := by
  obtain ⟨fs, lg, lp, ss⟩ := st
  refine ⟨?_, ?_, ?_, ?_, fun h => runBulkAux_aborted_id cfg startPos total pairs i bst h⟩
  · intro rest h
    simp at h
    subst h
    rfl
  · intro h
    simp at h
    subst h
    rfl
  · intro rest h
    simp at h
    subst h
    rfl
  · intro sent failed status rest h
    simp at h
    subst h
    rfl

/-- Claim C4 witness: the amended behaviour at concrete failure schedules —
single log failure with working fallback yields a FAILED row and no abort,
double failure propagates the error. -/
theorem c4_persistence_witness :
    sendEmail ⟨[true, false], [], 0, none⟩ "a@x.com" true
      = Except.ok (⟨[], [⟨"a@x.com", EmailStatus.failed⟩], 0, none⟩, false)
    ∧ sendEmail ⟨[true, true], [], 0, none⟩ "a@x.com" true
      = Except.error ⟨[], [], 0, none⟩ := by
  constructor
  · exact (c4_persistence_amended ⟨[true, false], [], 0, none⟩
      "a@x.com" true cfgPlain 0 0 0 [] (initialBulkState 0 store0)).1 [] rfl
  · exact (c4_persistence_amended ⟨[true, true], [], 0, none⟩
      "a@x.com" true cfgPlain 0 0 0 [] (initialBulkState 0 store0)).2.2.1 [] rfl
